import Mathlib

/-!
# VideoPlay backend: the video controller

A shallow embedding of `src/controllers/video.controller.js` and the proofs of
its specified properties.

Each request handler is a function from the database state and the request to a
`Run`: the outcome of the handler (a response sent, or an error thrown and handed
to the error middleware by `asyncHandler`), the database state afterwards, and the
trace of the calls made to the collaborators (the database model `Video` and the
media upload function).

Conventions of the embedding:

* A stored ObjectId (an `_id`, an `owner`) is represented by its canonical string form.
  The ObjectId that mongoose builds from a string of the request, by
  `new mongoose.Types.ObjectId(videoId)` and by the cast of the id handed to `findById` and
  `findByIdAndDelete`, is given by the parameter `objectId`: it yields the canonical form
  (so two spellings of one id, such as upper-case and lower-case hexadecimal digits, give
  the same ObjectId), or nothing when mongoose rejects the string and throws.
* The stage `$sort` is stable: documents with equal sort keys keep their order.
* `isValidObjectId` (imported from mongoose), `uploadOnCloudinary` (imported from
  `utils/cloudinary.js`) and the regular-expression matching of the database engine are
  parameters, collected in `Collaborators`.
* Text fields of a request body and query parameters are either absent (`undefined`) or
  strings.
* The numeric value of a query parameter follows the conversions of JavaScript:
  `jsToNumber` for the arithmetic `(page - 1) * limit`, `jsParseInt` for `parseInt(limit)`.
  Arithmetic is followed on integers up to `2 ^ 53`, which doubles hold exactly; what
  floating point makes of other finite values is the parameter `floatWindow`.
-/

namespace VideoPlay

/-! ## JavaScript strings -/

/-- Code points that `String.prototype.trim` strips: the WhiteSpace and LineTerminator
productions of ECMAScript. -/
def jsWhitespace (c : Char) : Bool :=
  let n := c.toNat
  n == 0x09 || n == 0x0A || n == 0x0B || n == 0x0C || n == 0x0D || n == 0x20 ||
  n == 0xA0 || n == 0x1680 || (0x2000 ≤ n && n ≤ 0x200A) || n == 0x2028 ||
  n == 0x2029 || n == 0x202F || n == 0x205F || n == 0x3000 || n == 0xFEFF

/-- The method `String.prototype.trim`: strips white space from both ends. -/
def jsTrim (s : String) : String :=
  ⟨((s.data.dropWhile jsWhitespace).reverse.dropWhile jsWhitespace).reverse⟩

/-! ## Data model -/

/-- A document of the `videos` collection. A text field that was `undefined` when the
document was created is absent. -/
structure Video where
  _id : String
  videoFile : String
  thumbnail : String
  title : Option String
  description : Option String
  duration : Nat
  isPublished : Bool
  owner : String
deriving DecidableEq, Repr

/-- A document of the `users` collection, with the fields the controller reads. -/
structure User where
  _id : String
  fullName : String
  username : String
  avatar : String
deriving DecidableEq, Repr

/-- A document of the `likes` collection: `video` refers to the liked video. -/
structure Like where
  video : String
  likedBy : String
deriving DecidableEq, Repr

/-- The three collections the controller touches. -/
structure Db where
  videos : List Video
  users : List User
  likes : List Like
deriving DecidableEq, Repr

/-- Result of the sub-pipeline `$project: { fullName: 1, username: 1, avatar: 1 }` on a
user (`_id` is kept by a projection unless excluded). -/
structure OwnerSummary where
  _id : String
  fullName : String
  username : String
  avatar : String
deriving DecidableEq, Repr

/-- Result of `$project: { thumbnail: 1, videoFile: 1, title: 1, description: 1, owner: 1 }`
in `getAllVideos` (`_id` is kept). The owner is absent when no user matched. -/
structure VideoSummary where
  _id : String
  thumbnail : String
  videoFile : String
  title : Option String
  description : Option String
  owner : Option OwnerSummary
deriving DecidableEq, Repr

/-- A document produced by the pipeline of `getVideoById`: the stored video, with `owner`
replaced by the first joined user summary and `likes` by the number of joined likes. -/
structure VideoDetail where
  video : Video
  owner : Option OwnerSummary
  likes : Nat
deriving DecidableEq, Repr

/-- What the upload function resolves to when it succeeds: the fields the controller reads. -/
structure UploadResult where
  url : String
  duration : Nat
deriving DecidableEq, Repr

/-! ## Responses, errors and the call trace -/

/-- An `ApiError(statusCode, message)` thrown by a handler. -/
structure ApiError where
  statusCode : Nat
  message : String
deriving DecidableEq, Repr

/-- The `data` argument of a response. -/
inductive Payload where
  | summaries (docs : List VideoSummary)
  | details (docs : List VideoDetail)
  | video (doc : Video)
  | videoOrNull (doc : Option Video)
  | empty
deriving DecidableEq, Repr

/-- An `ApiResponse(statusCode, data, message)`. -/
structure ApiResponse where
  statusCode : Nat
  data : Payload
  message : String
deriving DecidableEq, Repr

/-- The arguments handed to `res.json`: an `ApiResponse`, or, in `getVideoById`, the three
bare arguments `200, video, "..."`. -/
inductive Body where
  | envelope (r : ApiResponse)
  | bare (statusCode : Nat) (data : Payload) (message : String)
deriving DecidableEq, Repr

/-- How a handler ends. -/
inductive Outcome where
  /-- The call `res.status(status).json(body)`. -/
  | sent (status : Nat) (body : Body)
  /-- An `ApiError` was thrown. -/
  | threw (e : ApiError)
  /-- A JavaScript `TypeError` was thrown (a property of `undefined` was read). -/
  | typeError
  /-- The database engine rejected the pipeline (an argument of `$skip` that is not a
  non-negative integer, an argument of `$limit` that is not a positive integer). -/
  | engineError
  /-- Mongoose could not build an ObjectId from the id and threw. -/
  | castError
deriving DecidableEq, Repr

/-- A call to a collaborator. -/
inductive Call where
  | upload (localPath : String)
  | aggregate
  | create
  | findById (id : String)
  | findByIdAndDelete (id : String)
  | save (id : String)
deriving DecidableEq, Repr

/-- The result of running a handler. -/
structure Run where
  outcome : Outcome
  db : Db
  trace : List Call
deriving DecidableEq, Repr

/-- The functions the controller imports and the database-side choices it relies on. -/
structure Collaborators where
  /-- The function `isValidObjectId` of mongoose. -/
  isValidObjectId : String → Bool
  /-- The ObjectId mongoose builds from a string, in canonical form; `none` when it throws. -/
  objectId : String → Option String
  /-- The function `uploadOnCloudinary`: the upload result for a local path, `none` for `null`. -/
  uploadOnCloudinary : String → Option UploadResult
  /-- The engine's test of a string field against `$regex: query` with `$options: "i"`. -/
  regexI : Option String → String → Bool
  /-- The `_id` the database assigns to the next created video. -/
  newId : String
  /-- The schema default of `isPublished`. -/
  isPublishedDefault : Bool
  /-- The arguments of `$skip` and `$limit` that floating-point arithmetic and the engine make
  of the parameters `page` and `limit` when a value is finite but not an integer within
  `2 ^ 53`; `none` when the engine rejects them. -/
  floatWindow : Option String → Option String → Option (Nat × Nat)

/-! ## The database model `Video` -/

/-- The query `Video.findById` for the ObjectId `id` (the cast of the string handed to it):
the stored document with that `_id`, if any. -/
def findById (videos : List Video) (id : String) : Option Video :=
  videos.find? (fun v => v._id == id)

/-- The collection after `Video.findByIdAndDelete` for the ObjectId `id` (the cast of the
string handed to it): the document found is removed. -/
def findByIdAndDelete (videos : List Video) (id : String) : List Video :=
  videos.eraseP (fun v => v._id == id)

/-- The collection after `video.save()`: the stored document with the `_id` of `video` is
replaced by `video`. -/
def save : List Video → Video → List Video
  | [], _ => []
  | v :: vs, video => if v._id == video._id then video :: vs else v :: save vs video

/-- Modelled from the spec: the document `Video.create` inserts (the Video model is declared
in `models/video.model.js`, outside the sources at hand). It carries the fields given by the
caller, the `_id` assigned by the database and the default of `isPublished`. -/
def Video.create (env : Collaborators) (title description : Option String)
    (videoFile thumbnail : String) (duration : Nat) (owner : String) : Video :=
  { _id := env.newId
    videoFile := videoFile
    thumbnail := thumbnail
    title := title
    description := description
    duration := duration
    isPublished := env.isPublishedDefault
    owner := owner }

/-! ## Aggregation stages -/

/-- The sub-pipeline of `$lookup` from `users`: keep `fullName`, `username`, `avatar`. -/
def projectUser (u : User) : OwnerSummary :=
  { _id := u._id, fullName := u.fullName, username := u.username, avatar := u.avatar }

/-- The stage `$lookup` from `users` with `localField: "owner"`, `foreignField: "_id"`:
the summaries of the users whose `_id` is the video's owner. -/
def lookupOwner (users : List User) (v : Video) : List OwnerSummary :=
  (users.filter (fun u => u._id == v.owner)).map projectUser

/-- The stage `$lookup` from `likes` with `localField: "_id"`, `foreignField: "video"`. -/
def lookupLikes (likes : List Like) (v : Video) : List Like :=
  likes.filter (fun l => l.video == v._id)

/-- The stage `$match` of `getAllVideos`: title or description matches `query`,
case-insensitively. An absent field matches no regular expression. -/
def matchStage (env : Collaborators) (query : Option String) (videos : List Video) :
    List Video :=
  videos.filter (fun v =>
    (match v.title with
      | some title => env.regexI query title
      | none => false) ||
    (match v.description with
      | some description => env.regexI query description
      | none => false))

/-- The stages `$lookup`, `$addFields { owner: { $first: "$owner" } }` and `$project` of
`getAllVideos` on one document. -/
def summarise (users : List User) (v : Video) : VideoSummary :=
  { _id := v._id
    thumbnail := v.thumbnail
    videoFile := v.videoFile
    title := v.title
    description := v.description
    owner := (lookupOwner users v).head? }

/-- The stages `$lookup` (users), `$lookup` (likes) and `$addFields` of `getVideoById` on one
document: `owner` is the first joined user, `likes` the number of joined likes. -/
def enrich (db : Db) (v : Video) : VideoDetail :=
  { video := v
    owner := (lookupOwner db.users v).head?
    likes := (lookupLikes db.likes v).length }

/-! ## The sort order of the engine -/

/-- Lexicographic order on lists, given an order on the elements: a proper prefix comes
first. -/
def lexLe {α : Type} (le : α → α → Bool) : List α → List α → Bool
  | [], _ => true
  | _ :: _, [] => false
  | a :: as, b :: bs => if le a b then (if le b a then lexLe le as bs else true) else false

/-- Binary comparison of two strings (the engine's default collation): lexicographic on
the code points. -/
def strLe (s t : String) : Bool :=
  lexLe Nat.ble (s.data.map Char.toNat) (t.data.map Char.toNat)

/-- The values a sort key can take on the documents modelled here. -/
inductive Value where
  | null
  | num (n : Nat)
  | str (s : String)
  | doc (o : OwnerSummary)
  | oid (hex : String)
  | bool (b : Bool)
deriving DecidableEq, Repr

/-- Position of the type of a value in the engine's comparison order:
null, numbers, strings, objects, ObjectIds, booleans. -/
def Value.rank : Value → Nat
  | .null => 1
  | .num _ => 2
  | .str _ => 3
  | .doc _ => 4
  | .oid _ => 7
  | .bool _ => 8

/-- Comparison of two embedded owner summaries: field by field, in the order of the fields. -/
def OwnerSummary.le (a b : OwnerSummary) : Bool :=
  lexLe strLe [a._id, a.fullName, a.username, a.avatar] [b._id, b.fullName, b.username, b.avatar]

/-- The engine's comparison order on sort keys: values of one type are compared by value,
values of different types by the position of their types. -/
def Value.le : Value → Value → Bool
  | .null, .null => true
  | .num a, .num b => Nat.ble a b
  | .str a, .str b => strLe a b
  | .doc a, .doc b => OwnerSummary.le a b
  | .oid a, .oid b => strLe a b
  | .bool a, .bool b => !a || b
  | a, b => Nat.ble a.rank b.rank

/-- A text field as a sort key: null when absent. -/
def Value.ofText : Option String → Value
  | none => .null
  | some s => .str s

/-- The value of the field path `path` in a projected document; null when the document has
no such field. -/
def VideoSummary.field (path : String) (s : VideoSummary) : Value :=
  if path = "_id" then .oid s._id
  else if path = "thumbnail" then .str s.thumbnail
  else if path = "videoFile" then .str s.videoFile
  else if path = "title" then Value.ofText s.title
  else if path = "description" then Value.ofText s.description
  else if path = "owner" then (match s.owner with | none => .null | some o => .doc o)
  else if path = "owner._id" then (match s.owner with | none => .null | some o => .oid o._id)
  else if path = "owner.fullName" then
    (match s.owner with | none => .null | some o => .str o.fullName)
  else if path = "owner.username" then
    (match s.owner with | none => .null | some o => .str o.username)
  else if path = "owner.avatar" then
    (match s.owner with | none => .null | some o => .str o.avatar)
  else .null

/-- The value of the field `name` in a stored video; null when it has no such field. -/
def Video.field (name : String) (v : Video) : Value :=
  if name = "_id" then .oid v._id
  else if name = "videoFile" then .str v.videoFile
  else if name = "thumbnail" then .str v.thumbnail
  else if name = "title" then Value.ofText v.title
  else if name = "description" then Value.ofText v.description
  else if name = "duration" then .num v.duration
  else if name = "isPublished" then .bool v.isPublished
  else if name = "owner" then .oid v.owner
  else .null

/-- The order the stage `$sort: { [path]: 1 }` (ascending) or `{ [path]: -1 }` puts two
projected documents in. -/
def sortRel (path : String) (ascending : Bool) (a b : VideoSummary) : Prop :=
  if ascending then Value.le (a.field path) (b.field path) = true
  else Value.le (b.field path) (a.field path) = true

instance (path : String) (ascending : Bool) : DecidableRel (sortRel path ascending) :=
  fun a b => by unfold sortRel; exact inferInstance

/-- The stage `$sort`: documents with equal keys keep their order. -/
def sortStage (path : String) (ascending : Bool) (docs : List VideoSummary) :
    List VideoSummary :=
  List.insertionSort (sortRel path ascending) docs

/-! ## The handlers -/

/-- A number of JavaScript, as far as integer arithmetic can follow it: an integer of
magnitude at most `2 ^ 53` (which a double holds exactly), `NaN`, an infinity, or some other
finite value (a fraction, a larger number). -/
inductive JsNumber where
  | int (n : Int)
  | nan
  | finite
  | infinite
deriving DecidableEq, Repr

/-- The least magnitude that rounds to an infinity: half a unit beyond the largest double. -/
def overflowBound : Nat := 2 ^ 1024 - 2 ^ 970

/-- The integer `n` as a number: exact up to `2 ^ 53`. -/
def JsNumber.ofInt (n : Int) : JsNumber :=
  if n.natAbs ≤ 2 ^ 53 then .int n
  else if overflowBound ≤ n.natAbs then .infinite
  else .finite

/-- Unary minus. -/
def JsNumber.neg : JsNumber → JsNumber
  | .int n => .int (-n)
  | .nan => .nan
  | .finite => .finite
  | .infinite => .infinite

/-- The value of the character `c` as a digit in the given radix, if it is one. -/
def digitValue (radix : Nat) (c : Char) : Option Nat :=
  let n := c.toNat
  let d := if 48 ≤ n ∧ n ≤ 57 then n - 48
    else if 97 ≤ n ∧ n ≤ 122 then n - 87
    else if 65 ≤ n ∧ n ≤ 90 then n - 55
    else radix
  if d < radix then some d else none

/-- The digits, in the given radix, that a string starts with. -/
def leadingDigits (radix : Nat) : List Char → List Nat
  | [] => []
  | c :: cs =>
    match digitValue radix c with
    | some d => d :: leadingDigits radix cs
    | none => []

/-- The number written by a sequence of digits. -/
def digitsToNat (radix : Nat) (digits : List Nat) : Nat :=
  digits.foldl (fun acc d => acc * radix + d) 0

/-- The function `parseInt(s)` without a radix: leading white space is skipped, then a
sign, then `0x` or `0X` (which selects radix 16), then the longest run of digits is read;
`NaN` when there is no digit. -/
def jsParseInt (s : String) : JsNumber :=
  let trimmed := s.data.dropWhile jsWhitespace
  let negative := trimmed.head? == some '-'
  let unsigned := if trimmed.head? == some '-' || trimmed.head? == some '+'
    then trimmed.drop 1 else trimmed
  let radix := if unsigned.take 2 == ['0', 'x'] || unsigned.take 2 == ['0', 'X'] then 16 else 10
  let body := if radix == 16 then unsigned.drop 2 else unsigned
  match leadingDigits radix body with
  | [] => .nan
  | digits =>
    if negative then (JsNumber.ofInt (digitsToNat radix digits)).neg
    else JsNumber.ofInt (digitsToNat radix digits)

/-- The number `mantissa × 10 ^ exponent`. -/
def scaledDecimal (mantissa : Nat) (exponent : Int) : JsNumber :=
  if mantissa = 0 then .int 0
  else if 0 ≤ exponent then JsNumber.ofInt (mantissa * 10 ^ exponent.toNat)
  else if mantissa % 10 ^ (-exponent).toNat = 0 then
    JsNumber.ofInt (mantissa / 10 ^ (-exponent).toNat)
  else if overflowBound * 10 ^ (-exponent).toNat ≤ mantissa then .infinite
  else .finite

/-- The exponent part of a decimal literal: nothing, or `e` or `E`, an optional sign and
digits up to the end; `none` when the text is something else. -/
def exponentPart : List Char → Option Int
  | [] => some 0
  | c :: rest =>
    if c = 'e' ∨ c = 'E' then
      let negative := rest.head? == some '-'
      let digits := if rest.head? == some '-' || rest.head? == some '+'
        then rest.drop 1 else rest
      if digits ≠ [] ∧ (leadingDigits 10 digits).length = digits.length then
        some (if negative then -(digitsToNat 10 (leadingDigits 10 digits) : Int)
          else (digitsToNat 10 (leadingDigits 10 digits) : Int))
      else none
    else none

/-- An unsigned decimal literal of a numeric string: `Infinity`, or digits with an optional
fraction and an optional exponent; `NaN` when the text is something else. -/
def decimalLiteral (cs : List Char) : JsNumber :=
  if cs = "Infinity".data then .infinite
  else
    let intPart := leadingDigits 10 cs
    let afterInt := cs.drop intPart.length
    let fracPart := if afterInt.head? == some '.' then leadingDigits 10 (afterInt.drop 1) else []
    let afterFrac := if afterInt.head? == some '.' then afterInt.drop (1 + fracPart.length)
      else afterInt
    if intPart.length + fracPart.length = 0 then .nan
    else
      match exponentPart afterFrac with
      | none => .nan
      | some e => scaledDecimal (digitsToNat 10 (intPart ++ fracPart)) (e - fracPart.length)

/-- A hexadecimal, octal or binary literal after its prefix: digits up to the end. -/
def radixLiteral (radix : Nat) (cs : List Char) : JsNumber :=
  if cs ≠ [] ∧ (leadingDigits radix cs).length = cs.length then
    JsNumber.ofInt (digitsToNat radix (leadingDigits radix cs))
  else .nan

/-- The conversion of a string to a number that arithmetic applies (`ToNumber`): white
space is trimmed, the empty string is 0, and the rest must be a numeric literal. -/
def jsToNumber (s : String) : JsNumber :=
  match (jsTrim s).data with
  | [] => .int 0
  | '0' :: 'x' :: rest => radixLiteral 16 rest
  | '0' :: 'X' :: rest => radixLiteral 16 rest
  | '0' :: 'o' :: rest => radixLiteral 8 rest
  | '0' :: 'O' :: rest => radixLiteral 8 rest
  | '0' :: 'b' :: rest => radixLiteral 2 rest
  | '0' :: 'B' :: rest => radixLiteral 2 rest
  | '-' :: rest => (decimalLiteral rest).neg
  | '+' :: rest => decimalLiteral rest
  | cs => decimalLiteral cs

/-- The query parameters of `GET /videos`. -/
structure ListQuery where
  page : Option String
  limit : Option String
  query : Option String
  sortBy : Option String
  sortType : Option String
  userId : Option String
deriving DecidableEq, Repr

/-- The value in arithmetic of a query parameter with a default: the default when the
parameter is absent, `jsToNumber` of its text otherwise. -/
def numberOr (dflt : Int) : Option String → JsNumber
  | none => .int dflt
  | some s => jsToNumber s

/-- The value of `parseInt` on a query parameter with a default. -/
def parseIntOr (dflt : Int) : Option String → JsNumber
  | none => .int dflt
  | some s => jsParseInt s

/-- The computed key `[sortBy]` of the sort stage: an absent `sortBy` gives the key
`"undefined"`. -/
def ListQuery.sortKey (q : ListQuery) : String := q.sortBy.getD "undefined"

/-- The test `sortType === "asc"`. -/
def ListQuery.ascending (q : ListQuery) : Bool := q.sortType == some "asc"

/-- The argument of `$skip: (page - 1) * limit` as a number of documents, given the values
of `page` and `limit` in arithmetic; `none` when the engine rejects it (`NaN`, an infinity,
a negative number). The product is followed when both values are integers and it stays
within `2 ^ 53`, and when `page` is 1 and `limit` is finite (it is 0); otherwise it is left
to `float`. -/
def skipArgument (float : Option Nat) : JsNumber → JsNumber → Option Nat
  | .nan, _ => none
  | _, .nan => none
  | .infinite, _ => none
  | _, .infinite => none
  | .int p, .int l =>
    if ((p - 1) * l).natAbs ≤ 2 ^ 53 then
      if (p - 1) * l < 0 then none else some ((p - 1) * l).toNat
    else float
  | .int p, .finite => if p = 1 then some 0 else float
  | .finite, _ => float

/-- The argument of `$limit: parseInt(limit)` as a number of documents, given the value of
`parseInt(limit)`; `none` when the engine rejects it (`NaN`, an infinity, a number that is
not positive). -/
def limitArgument (float : Option Nat) : JsNumber → Option Nat
  | .nan => none
  | .infinite => none
  | .int n => if n ≤ 0 then none else some n.toNat
  | .finite => float

/-- The arguments of `$skip` and `$limit` as numbers of documents, with `page = 1` and
`limit = 10` by default; `none` when the engine rejects the pipeline. -/
def pageWindow (env : Collaborators) (page limit : Option String) : Option (Nat × Nat) :=
  match skipArgument ((env.floatWindow page limit).map Prod.fst) (numberOr 1 page)
      (numberOr 10 limit),
    limitArgument ((env.floatWindow page limit).map Prod.snd) (parseIntOr 10 limit) with
  | some skip, some limit => some (skip, limit)
  | _, _ => none

/-- The documents that reach the stage `$skip` in `getAllVideos`: matched, joined and
projected, sorted. -/
def sortedMatches (env : Collaborators) (db : Db) (q : ListQuery) : List VideoSummary :=
  sortStage q.sortKey q.ascending ((matchStage env q.query db.videos).map (summarise db.users))

/-- The handler `getAllVideos`. -/
def getAllVideos (env : Collaborators) (db : Db) (q : ListQuery) : Run :=
  match pageWindow env q.page q.limit with
  | none => { outcome := .engineError, db := db, trace := [.aggregate] }
  | some (skip, limit) =>
    let allVideos := ((sortedMatches env db q).drop skip).take limit
    { outcome := .sent 200 (.envelope ⟨200, .summaries allVideos, "fetched successfully"⟩)
      db := db
      trace := [.aggregate] }

/-- A file stored by the upload middleware. -/
structure UploadedFile where
  path : String
deriving DecidableEq, Repr

/-- The object `req.files`: for each field name, the files received under it. -/
structure Files where
  videoFile : Option (List UploadedFile)
  thumbnail : Option (List UploadedFile)
deriving DecidableEq, Repr

/-- The request of `POST /videos`. -/
structure PublishRequest where
  title : Option String
  description : Option String
  files : Option Files
  /-- The `_id` of `req.user`, when the request carries an authenticated user. -/
  user : Option String
deriving DecidableEq, Repr

/-- The expression `req.files?.field[0]?.path`: `undefined` without `req.files` or with an
empty array, a `TypeError` (`.error`) when `req.files` lacks the field. -/
def firstPath (files : Option Files) (field : Files → Option (List UploadedFile)) :
    Except Unit (Option String) :=
  match files with
  | none => .ok none
  | some fs =>
    match field fs with
    | none => .error ()
    | some [] => .ok none
    | some (f :: _) => .ok (some f.path)

/-- The test `[title, description].some((field) => field?.trim() === "")`. -/
def someFieldBlank (title description : Option String) : Bool :=
  [title, description].any (fun field => field.map jsTrim == some "")

/-- The handler `publishAVideo`. -/
def publishAVideo (env : Collaborators) (db : Db) (req : PublishRequest) : Run :=
  if someFieldBlank req.title req.description then
    { outcome := .threw ⟨400, "All fields are required."⟩, db := db, trace := [] }
  else
    match firstPath req.files Files.videoFile with
    | .error _ => { outcome := .typeError, db := db, trace := [] }
    | .ok videoFileLocalPath =>
    match firstPath req.files Files.thumbnail with
    | .error _ => { outcome := .typeError, db := db, trace := [] }
    | .ok thumbnailLocalPath =>
    match videoFileLocalPath, thumbnailLocalPath with
    | some videoPath, some thumbnailPath =>
      if videoPath == "" || thumbnailPath == "" then
        { outcome := .threw ⟨400, "Video and thumbnail file is required to publish a video."⟩
          db := db, trace := [] }
      else
        let videoFile := env.uploadOnCloudinary videoPath
        let thumbnail := env.uploadOnCloudinary thumbnailPath
        let uploads := [Call.upload videoPath, Call.upload thumbnailPath]
        match videoFile, thumbnail with
        | some videoFile, some thumbnail =>
          match req.user with
          | none => { outcome := .typeError, db := db, trace := uploads }
          | some userId =>
            let video := Video.create env req.title req.description videoFile.url
              thumbnail.url videoFile.duration userId
            { outcome := .sent 200 (.envelope ⟨200, .video video, "Video uploaded successfully"⟩)
              db := { db with videos := db.videos ++ [video] }
              trace := uploads ++ [.create] }
        | _, _ =>
          { outcome := .threw ⟨500, "Failed to upload video or thumbnail file to Cloudinary."⟩
            db := db, trace := uploads }
    | _, _ =>
      { outcome := .threw ⟨400, "Video and thumbnail file is required to publish a video."⟩
        db := db, trace := [] }

/-- The handler `getVideoById`. -/
def getVideoById (env : Collaborators) (db : Db) (videoId : String) : Run :=
  if jsTrim videoId == "" || !env.isValidObjectId videoId then
    { outcome := .threw ⟨400, "VideoId is required"⟩, db := db, trace := [] }
  else
    match env.objectId videoId with
    | none => { outcome := .castError, db := db, trace := [] }
    | some id =>
      let video := (db.videos.filter (fun v => v._id == id)).map (enrich db)
      if video.length == 0 then
        { outcome := .threw ⟨404, "video does not exist"⟩, db := db, trace := [.aggregate] }
      else
        { outcome := .sent 200 (.bare 200 (.details video) "Video fetched successfully")
          db := db, trace := [.aggregate] }

/-- The handler `deleteVideo`. -/
def deleteVideo (env : Collaborators) (db : Db) (videoId : String) : Run :=
  if videoId == "" then
    { outcome := .threw ⟨404, "Video not found"⟩, db := db, trace := [] }
  else
    match env.objectId videoId with
    | none => { outcome := .castError, db := db, trace := [.findByIdAndDelete videoId] }
    | some id =>
      let deletedVideo := findById db.videos id
      { outcome := .sent 200
          (.envelope ⟨200, .videoOrNull deletedVideo, "Video deleted successfully"⟩)
        db := { db with videos := findByIdAndDelete db.videos id }
        trace := [.findByIdAndDelete videoId] }

/-- The handler `togglePublishStatus`; `user` is the `_id` of `req.user`, if any. The test
`video.owner != req.user?._id` compares the two ids by value. -/
def togglePublishStatus (env : Collaborators) (db : Db) (videoId : String)
    (user : Option String) : Run :=
  if jsTrim videoId == "" || env.isValidObjectId videoId then
    { outcome := .threw ⟨400, "videoId is required."⟩, db := db, trace := [] }
  else
    match env.objectId videoId with
    | none => { outcome := .castError, db := db, trace := [.findById videoId] }
    | some id =>
      match findById db.videos id with
      | none =>
        { outcome := .threw ⟨404, "Video not found."⟩, db := db, trace := [.findById videoId] }
      | some video =>
        if some video.owner != user then
          { outcome := .threw ⟨401, "Unauthorised user"⟩, db := db
            trace := [.findById videoId] }
        else
          let video := { video with isPublished := !video.isPublished }
          { outcome := .sent 200
              (.envelope ⟨200, .empty, "Toggled publish status successfully"⟩)
            db := { db with videos := save db.videos video }
            trace := [.findById videoId, .save video._id] }

/-! ## Concrete collaborators, for evaluating the handlers -/

/-- A hexadecimal digit. -/
def isHexDigit (c : Char) : Bool :=
  let n := c.toNat
  (48 ≤ n && n ≤ 57) || (65 ≤ n && n ≤ 70) || (97 ≤ n && n ≤ 102)

/-- The string form of an ObjectId: 24 hexadecimal digits. -/
def isHexObjectId (s : String) : Bool :=
  s.data.length == 24 && s.data.all isHexDigit

/-- The lower-case form of a hexadecimal digit. -/
def lowerHexDigit (c : Char) : Char :=
  if c = 'A' then 'a' else if c = 'B' then 'b' else if c = 'C' then 'c'
  else if c = 'D' then 'd' else if c = 'E' then 'e' else if c = 'F' then 'f' else c

/-- The ObjectId written by 24 hexadecimal digits, in lower case; other strings are
rejected. -/
def hexObjectId (s : String) : Option String :=
  if isHexObjectId s then some ⟨s.data.map lowerHexDigit⟩ else none

/-- Lower-case form of the code point of an ASCII letter. -/
def lowerAscii (c : Char) : Nat :=
  if 65 ≤ c.toNat ∧ c.toNat ≤ 90 then c.toNat + 32 else c.toNat

/-- Case-insensitive search of a literal pattern (one without metacharacters): the match
of an absent pattern is never found. -/
def literalRegexI (pattern : Option String) (text : String) : Bool :=
  match pattern with
  | none => false
  | some p =>
    (text.data.map lowerAscii).tails.any (fun t => (p.data.map lowerAscii).isPrefixOf t)

/-- An upload function that fails on paths ending in `.bad` and otherwise reports the
URL `cdn/` followed by the path, with a duration equal to the length of the path. -/
def sampleUpload (localPath : String) : Option UploadResult :=
  if (".bad".data).isSuffixOf localPath.data then none
  else some { url := "cdn/" ++ localPath, duration := localPath.data.length }

/-- Collaborators for the examples. No example reaches floating-point arithmetic; this
`floatWindow` rejects. -/
def sampleEnv : Collaborators :=
  { isValidObjectId := isHexObjectId
    objectId := hexObjectId
    uploadOnCloudinary := sampleUpload
    regexI := literalRegexI
    newId := "65f0a1b2c3d4e5f6a7b8c9d0"
    isPublishedDefault := false
    floatWindow := fun _ _ => none }

/-! ## Specification predicates -/

/-- A publish request passes validation, with local paths `videoPath` and `thumbnailPath`:
title and description are non-blank strings, and both file paths are present. -/
def PassesValidation (req : PublishRequest) (videoPath thumbnailPath : String) : Prop :=
  (∃ t, req.title = some t ∧ jsTrim t ≠ "") ∧
  (∃ d, req.description = some d ∧ jsTrim d ≠ "") ∧
  firstPath req.files Files.videoFile = .ok (some videoPath) ∧
  firstPath req.files Files.thumbnail = .ok (some thumbnailPath) ∧
  videoPath ≠ "" ∧ thumbnailPath ≠ ""

/-- The call is an upload. -/
def Call.isUpload : Call → Bool
  | .upload _ => true
  | _ => false

/-- The field paths a projected document carries a value for. -/
def projectedPaths : List String :=
  ["_id", "thumbnail", "videoFile", "title", "description", "owner", "owner._id",
    "owner.fullName", "owner.username", "owner.avatar"]

/-- The fields the projection copies from the stored video as they are. -/
def copiedFields : List String :=
  ["_id", "thumbnail", "videoFile", "title", "description"]

/-- The items are ordered on the field `name` of the stored videos they stand for: they are
the projections of a sequence of stored videos in which, whenever `a` comes before `b`,
`a.name ≤ b.name` (ascending) or `a.name ≥ b.name` (otherwise) in the engine's order. -/
def OrderedOnVideoField (db : Db) (name : String) (ascending : Bool)
    (items : List VideoSummary) : Prop :=
  ∃ vids : List Video, items = vids.map (summarise db.users) ∧ (∀ v ∈ vids, v ∈ db.videos) ∧
    vids.Pairwise (fun a b =>
      if ascending then Value.le (a.field name) (b.field name) = true
      else Value.le (b.field name) (a.field name) = true)

/-! ## Sample data -/

/-- A stored video owned by user `u1`. -/
def catsVideo : Video :=
  { _id := "65f0a1b2c3d4e5f6a7b8c901"
    videoFile := "cdn/cats.mp4"
    thumbnail := "cdn/cats.png"
    title := some "Cats at play"
    description := some "kittens"
    duration := 5
    isPublished := false
    owner := "u1" }

/-- A stored video owned by user `u2`, shorter than `catsVideo`. -/
def dogsVideo : Video :=
  { _id := "65f0a1b2c3d4e5f6a7b8c902"
    videoFile := "cdn/dogs.mp4"
    thumbnail := "cdn/dogs.png"
    title := some "Big dogs"
    description := some "not cats"
    duration := 3
    isPublished := true
    owner := "u2" }

/-- A database with two videos, one user and one like. -/
def sampleDb : Db :=
  { videos := [catsVideo, dogsVideo]
    users := [{ _id := "u1", fullName := "Ann Lee", username := "ann", avatar := "cdn/ann.png" }]
    likes := [{ video := "65f0a1b2c3d4e5f6a7b8c901", likedBy := "u2" }] }

/-- A publish request with both files, by user `u1`. -/
def samplePublish (title description videoPath thumbnailPath : String) : PublishRequest :=
  { title := some title
    description := some description
    files := some { videoFile := some [⟨videoPath⟩], thumbnail := some [⟨thumbnailPath⟩] }
    user := some "u1" }

/-- The query `GET /videos?query=cats&sortBy=...&sortType=...` without page and limit. -/
def catsQuery (sortBy sortType : String) : ListQuery :=
  { page := none, limit := none, query := some "cats", sortBy := some sortBy
    sortType := some sortType, userId := none }

/-- The database `sampleDb` with its two videos stored in the other order. -/
def swappedDb : Db := { sampleDb with videos := [dogsVideo, catsVideo] }

/-! ## Publishing -/

theorem someFieldBlank_of_blank {title description : Option String}
    (h : (∃ t, title = some t ∧ jsTrim t = "") ∨ (∃ d, description = some d ∧ jsTrim d = "")) :
    someFieldBlank title description = true := by
  rcases h with ⟨t, rfl, ht⟩ | ⟨d, rfl, hd⟩
  · simp [someFieldBlank, ht]
  · simp [someFieldBlank, hd]

theorem someFieldBlank_of_valid {req : PublishRequest} {vp tp : String}
    (h : PassesValidation req vp tp) : someFieldBlank req.title req.description = false := by
  obtain ⟨⟨t, ht, htn⟩, ⟨d, hd, hdn⟩, _⟩ := h
  simp [someFieldBlank, ht, hd, htn, hdn]

/-- The run of `publishAVideo` on a request that passes validation is decided by the two
upload results and the presence of the user. -/
theorem publishAVideo_of_valid (env : Collaborators) (db : Db) (req : PublishRequest)
    (vp tp : String) (h : PassesValidation req vp tp) :
    publishAVideo env db req =
      match env.uploadOnCloudinary vp, env.uploadOnCloudinary tp with
      | some videoFile, some thumbnail =>
        match req.user with
        | none => { outcome := .typeError, db := db, trace := [.upload vp, .upload tp] }
        | some userId =>
          { outcome := .sent 200 (.envelope ⟨200,
              .video (Video.create env req.title req.description videoFile.url thumbnail.url
                videoFile.duration userId), "Video uploaded successfully"⟩)
            db := { db with videos := db.videos ++
              [Video.create env req.title req.description videoFile.url thumbnail.url
                videoFile.duration userId] }
            trace := [.upload vp, .upload tp, .create] }
      | _, _ =>
        { outcome := .threw ⟨500, "Failed to upload video or thumbnail file to Cloudinary."⟩
          db := db, trace := [.upload vp, .upload tp] } := by
  have hb := someFieldBlank_of_valid h
  obtain ⟨_, _, hv, ht, hvn, htn⟩ := h
  unfold publishAVideo
  simp only [hb, hv, ht]
  simp [hvn, htn]

/-- C4: a publish request whose title or description is a string that is empty after
trimming fails with `ApiError` 400, invokes no collaborator (so no upload) and leaves the
database as it was, whatever files and user it carries. -/
theorem publishAVideo_blank_field (env : Collaborators) (db : Db) (req : PublishRequest)
    (h : (∃ t, req.title = some t ∧ jsTrim t = "") ∨
      (∃ d, req.description = some d ∧ jsTrim d = "")) :
    (publishAVideo env db req).outcome = .threw ⟨400, "All fields are required."⟩ ∧
    (publishAVideo env db req).trace = [] ∧
    (publishAVideo env db req).db = db := by
  have hb := someFieldBlank_of_blank h
  simp [publishAVideo, hb]

theorem publishAVideo_blank_field_witness :
    (publishAVideo sampleEnv sampleDb (samplePublish "Cats" " \t\n" "a.mp4" "a.png")).outcome
      = .threw ⟨400, "All fields are required."⟩ ∧
    (publishAVideo sampleEnv sampleDb (samplePublish "Cats" " \t\n" "a.mp4" "a.png")).trace = [] ∧
    (publishAVideo sampleEnv sampleDb (samplePublish "Cats" " \t\n" "a.mp4" "a.png")).db
      = sampleDb :=
  publishAVideo_blank_field sampleEnv sampleDb (samplePublish "Cats" " \t\n" "a.mp4" "a.png")
    (Or.inr ⟨" \t\n", rfl, by decide⟩)

theorem samplePublish_valid (title description vp tp : String)
    (ht : jsTrim title ≠ "") (hd : jsTrim description ≠ "") (hv : vp ≠ "") (hp : tp ≠ "") :
    PassesValidation (samplePublish title description vp tp) vp tp :=
  ⟨⟨title, rfl, ht⟩, ⟨description, rfl, hd⟩, rfl, rfl, hv, hp⟩

/-- C5: when a publish request passes validation and the upload function returns no result
for the video file or for the thumbnail, the handler fails with `ApiError` 500, makes no
call to `Video.create`, and the database (so the video collection) is what it was. -/
theorem publishAVideo_upload_failure (env : Collaborators) (db : Db) (req : PublishRequest)
    (vp tp : String) (h : PassesValidation req vp tp)
    (hfail : env.uploadOnCloudinary vp = none ∨ env.uploadOnCloudinary tp = none) :
    (publishAVideo env db req).outcome =
      .threw ⟨500, "Failed to upload video or thumbnail file to Cloudinary."⟩ ∧
    (publishAVideo env db req).db = db ∧
    (publishAVideo env db req).db.videos = db.videos ∧
    Call.create ∉ (publishAVideo env db req).trace := by
  rw [publishAVideo_of_valid env db req vp tp h]
  rcases hfail with hv | ht
  · simp [hv]
  · cases hvu : env.uploadOnCloudinary vp <;> simp [ht]

theorem publishAVideo_upload_failure_witness :
    (publishAVideo sampleEnv sampleDb (samplePublish "Cats" "kittens" "a.mp4" "a.bad")).outcome =
      .threw ⟨500, "Failed to upload video or thumbnail file to Cloudinary."⟩ ∧
    (publishAVideo sampleEnv sampleDb (samplePublish "Cats" "kittens" "a.mp4" "a.bad")).db
      = sampleDb ∧
    (publishAVideo sampleEnv sampleDb (samplePublish "Cats" "kittens" "a.mp4" "a.bad")).db.videos
      = sampleDb.videos ∧
    Call.create ∉
      (publishAVideo sampleEnv sampleDb (samplePublish "Cats" "kittens" "a.mp4" "a.bad")).trace :=
  publishAVideo_upload_failure sampleEnv sampleDb (samplePublish "Cats" "kittens" "a.mp4" "a.bad")
    "a.mp4" "a.bad"
    (samplePublish_valid "Cats" "kittens" "a.mp4" "a.bad" (by decide) (by decide) (by decide)
      (by decide))
    (Or.inr (by decide))

/-- C6: when a publish request passes validation, both uploads return a result and the
request carries an authenticated user, the handler appends exactly one record to the video
collection, with the title and description of the request, the URL of the video upload as
`videoFile`, the URL of the thumbnail upload as `thumbnail`, the duration reported by the
video upload, and the user's id as owner; users and likes are untouched, and the response
has status 200 and carries that record. -/
theorem publishAVideo_creates (env : Collaborators) (db : Db) (req : PublishRequest)
    (vp tp : String) (videoFile thumbnail : UploadResult) (userId : String)
    (h : PassesValidation req vp tp)
    (hv : env.uploadOnCloudinary vp = some videoFile)
    (ht : env.uploadOnCloudinary tp = some thumbnail)
    (hu : req.user = some userId) :
    ∃ video : Video,
      (publishAVideo env db req).outcome =
        .sent 200 (.envelope ⟨200, .video video, "Video uploaded successfully"⟩) ∧
      (publishAVideo env db req).db.videos = db.videos ++ [video] ∧
      (publishAVideo env db req).db.users = db.users ∧
      (publishAVideo env db req).db.likes = db.likes ∧
      video.title = req.title ∧ video.description = req.description ∧
      video.videoFile = videoFile.url ∧ video.thumbnail = thumbnail.url ∧
      video.duration = videoFile.duration ∧ video.owner = userId := by
  refine ⟨Video.create env req.title req.description videoFile.url thumbnail.url
    videoFile.duration userId, ?_⟩
  rw [publishAVideo_of_valid env db req vp tp h]
  simp [hv, ht, hu, Video.create]

theorem publishAVideo_creates_witness :
    ∃ video : Video,
      (publishAVideo sampleEnv sampleDb (samplePublish "Cats" "kittens" "a.mp4" "a.png")).outcome =
        .sent 200 (.envelope ⟨200, .video video, "Video uploaded successfully"⟩) ∧
      (publishAVideo sampleEnv sampleDb (samplePublish "Cats" "kittens" "a.mp4" "a.png")).db.videos
        = sampleDb.videos ++ [video] ∧
      (publishAVideo sampleEnv sampleDb (samplePublish "Cats" "kittens" "a.mp4" "a.png")).db.users
        = sampleDb.users ∧
      (publishAVideo sampleEnv sampleDb (samplePublish "Cats" "kittens" "a.mp4" "a.png")).db.likes
        = sampleDb.likes ∧
      video.title = (samplePublish "Cats" "kittens" "a.mp4" "a.png").title ∧
      video.description = (samplePublish "Cats" "kittens" "a.mp4" "a.png").description ∧
      video.videoFile = "cdn/a.mp4" ∧ video.thumbnail = "cdn/a.png" ∧
      video.duration = 5 ∧ video.owner = "u1" :=
  publishAVideo_creates sampleEnv sampleDb (samplePublish "Cats" "kittens" "a.mp4" "a.png")
    "a.mp4" "a.png" ⟨"cdn/a.mp4", 5⟩ ⟨"cdn/a.png", 5⟩ "u1"
    (samplePublish_valid "Cats" "kittens" "a.mp4" "a.png" (by decide) (by decide) (by decide)
      (by decide))
    (by decide) (by decide) rfl

/-- C10, counterexample: on a request that passes validation and whose video-file upload
returns no result, the thumbnail upload is invoked all the same: the trace holds two
upload calls, not one. -/
theorem publishAVideo_second_upload_after_failed_first :
    PassesValidation (samplePublish "Cats" "kittens" "a.bad" "a.png") "a.bad" "a.png" ∧
    sampleEnv.uploadOnCloudinary "a.bad" = none ∧
    (publishAVideo sampleEnv sampleDb (samplePublish "Cats" "kittens" "a.bad" "a.png")).trace
      = [.upload "a.bad", .upload "a.png"] ∧
    Call.upload "a.png" ∈
      (publishAVideo sampleEnv sampleDb (samplePublish "Cats" "kittens" "a.bad" "a.png")).trace ∧
    ((publishAVideo sampleEnv sampleDb
      (samplePublish "Cats" "kittens" "a.bad" "a.png")).trace.filter Call.isUpload).length ≠ 1 :=
  ⟨samplePublish_valid "Cats" "kittens" "a.bad" "a.png" (by decide) (by decide) (by decide)
      (by decide),
    by decide, by decide, by decide, by decide⟩

/-- C10, amended: on every request that passes validation the video-file upload is invoked
first and the thumbnail upload second, and both are invoked in every run; the only call that
can follow them is `Video.create`. When the video-file upload returns no result, the trace is
exactly these two upload calls and the handler fails with `ApiError` 500, the database
untouched. -/
theorem publishAVideo_upload_order (env : Collaborators) (db : Db) (req : PublishRequest)
    (vp tp : String) (h : PassesValidation req vp tp) :
    (∃ rest, (publishAVideo env db req).trace = .upload vp :: .upload tp :: rest ∧
      (rest = [] ∨ rest = [.create])) ∧
    ((publishAVideo env db req).trace.filter Call.isUpload).length = 2 ∧
    (env.uploadOnCloudinary vp = none →
      (publishAVideo env db req).trace = [.upload vp, .upload tp] ∧
      (publishAVideo env db req).outcome =
        .threw ⟨500, "Failed to upload video or thumbnail file to Cloudinary."⟩ ∧
      (publishAVideo env db req).db = db) := by
  rw [publishAVideo_of_valid env db req vp tp h]
  cases hv : env.uploadOnCloudinary vp <;> cases ht : env.uploadOnCloudinary tp <;>
    cases hu : req.user <;> simp [Call.isUpload]

theorem publishAVideo_upload_order_witness :
    (publishAVideo sampleEnv sampleDb (samplePublish "Cats" "kittens" "b.bad" "b.png")).trace
      = [.upload "b.bad", .upload "b.png"] ∧
    (publishAVideo sampleEnv sampleDb (samplePublish "Cats" "kittens" "b.bad" "b.png")).outcome =
      .threw ⟨500, "Failed to upload video or thumbnail file to Cloudinary."⟩ ∧
    (publishAVideo sampleEnv sampleDb (samplePublish "Cats" "kittens" "b.bad" "b.png")).db
      = sampleDb :=
  (publishAVideo_upload_order sampleEnv sampleDb (samplePublish "Cats" "kittens" "b.bad" "b.png")
    "b.bad" "b.png"
    (samplePublish_valid "Cats" "kittens" "b.bad" "b.png" (by decide) (by decide) (by decide)
      (by decide))).2.2 (by decide)

/-! ## Reading one video -/

theorem jsTrim_empty : jsTrim "" = "" := by decide

theorem ne_empty_of_jsTrim_ne {s : String} (h : jsTrim s ≠ "") : s ≠ "" := by
  intro hs
  exact h (hs ▸ jsTrim_empty)

theorem not_whitespace_of_hexDigit (c : Char) (h : isHexDigit c = true) :
    jsWhitespace c = false := by
  simp only [isHexDigit, Bool.or_eq_true, Bool.and_eq_true, decide_eq_true_eq] at h
  simp only [jsWhitespace, Bool.or_eq_false_iff, Bool.and_eq_false_iff, beq_eq_false_iff_ne,
    decide_eq_false_iff_not, ne_eq]
  omega

theorem jsTrim_ne_empty_of_head (c : Char) (rest : List Char) (hc : jsWhitespace c = false) :
    jsTrim ⟨c :: rest⟩ ≠ "" := by
  intro h
  have h' : ((c :: rest).dropWhile jsWhitespace).reverse.dropWhile jsWhitespace = [] := by
    have := congrArg String.data h
    simpa [jsTrim] using this
  rw [List.dropWhile_eq_nil_iff] at h'
  have := h' c (by simp [List.dropWhile_cons, hc])
  simp [hc] at this

/-- The strings of 24 hexadecimal digits are not blank: for a validator that accepts only
such strings, an accepted id always passes the blank test of the guards. -/
theorem jsTrim_ne_empty_of_hexObjectId (s : String) (h : isHexObjectId s = true) :
    jsTrim s ≠ "" := by
  obtain ⟨l⟩ := s
  simp only [isHexObjectId, Bool.and_eq_true, beq_iff_eq, List.all_eq_true] at h
  cases l with
  | nil => simp at h
  | cons c rest =>
    exact jsTrim_ne_empty_of_head c rest
      (not_whitespace_of_hexDigit c (h.2 c (List.mem_cons_self _ _)))

/-- A well-formed id that mongoose reads as the ObjectId `id` reaches the pipeline of
`getVideoById`; the outcome depends on whether a stored video has that `_id`. -/
theorem getVideoById_of_wellformed (env : Collaborators) (db : Db) (videoId id : String)
    (hb : jsTrim videoId ≠ "") (hv : env.isValidObjectId videoId = true)
    (hcast : env.objectId videoId = some id) :
    getVideoById env db videoId =
      if ((db.videos.filter (fun v => v._id == id)).map (enrich db)).length == 0 then
        { outcome := .threw ⟨404, "video does not exist"⟩, db := db, trace := [.aggregate] }
      else
        { outcome := .sent 200 (.bare 200
            (.details ((db.videos.filter (fun v => v._id == id)).map (enrich db)))
            "Video fetched successfully")
          db := db, trace := [.aggregate] } := by
  simp [getVideoById, hb, hv, hcast]

/-- C3: `getVideoById` fails with `ApiError` 400, without any call to a collaborator (so
without a database operation) and with the database untouched, for every `videoId` that is
empty or white space after trimming, or that `isValidObjectId` rejects; and it fails with
`ApiError` 404 for every well-formed `videoId` (not blank, accepted by `isValidObjectId`,
read by mongoose as the ObjectId `id`) such that no stored video has the `_id` `id`. -/
theorem getVideoById_errors (env : Collaborators) (db : Db) (videoId : String) :
    ((jsTrim videoId = "" ∨ env.isValidObjectId videoId = false) →
      (getVideoById env db videoId).outcome = .threw ⟨400, "VideoId is required"⟩ ∧
      (getVideoById env db videoId).trace = [] ∧
      (getVideoById env db videoId).db = db) ∧
    (∀ id : String, jsTrim videoId ≠ "" → env.isValidObjectId videoId = true →
      env.objectId videoId = some id → (∀ v ∈ db.videos, v._id ≠ id) →
      (getVideoById env db videoId).outcome = .threw ⟨404, "video does not exist"⟩) := by
  constructor
  · intro h
    have hguard : (jsTrim videoId == "" || !env.isValidObjectId videoId) = true := by
      rcases h with h | h <;> simp [h]
    simp [getVideoById, hguard]
  · intro id hb hv hcast hnone
    have hfilter : db.videos.filter (fun v => v._id == id) = [] := by
      rw [List.filter_eq_nil_iff]
      intro v hmem
      simpa using hnone v hmem
    rw [getVideoById_of_wellformed env db videoId id hb hv hcast, hfilter]
    simp

theorem getVideoById_errors_witness :
    (getVideoById sampleEnv sampleDb "not-an-id").outcome = .threw ⟨400, "VideoId is required"⟩ ∧
    (getVideoById sampleEnv sampleDb "not-an-id").trace = [] ∧
    (getVideoById sampleEnv sampleDb "65F0A1B2C3D4E5F6A7B8C9FF").outcome
      = .threw ⟨404, "video does not exist"⟩ ∧
    (getVideoById sampleEnv sampleDb "65F0A1B2C3D4E5F6A7B8C901").outcome
      = .sent 200 (.bare 200 (.details [enrich sampleDb catsVideo]) "Video fetched successfully") :=
  ⟨((getVideoById_errors sampleEnv sampleDb "not-an-id").1 (Or.inr (by decide))).1,
   ((getVideoById_errors sampleEnv sampleDb "not-an-id").1 (Or.inr (by decide))).2.1,
   (getVideoById_errors sampleEnv sampleDb "65F0A1B2C3D4E5F6A7B8C9FF").2
     "65f0a1b2c3d4e5f6a7b8c9ff" (by decide) (by decide) (by decide) (by decide),
   by decide⟩

/-! ## Deleting -/

theorem eraseP_id_eq_filter (videos : List Video) (videoId : String)
    (hids : (videos.map (fun v => v._id)).Nodup) :
    videos.eraseP (fun v => v._id == videoId) = videos.filter (fun v => v._id != videoId) := by
  induction videos with
  | nil => rfl
  | cons v vs ih =>
    rw [List.map_cons, List.nodup_cons] at hids
    obtain ⟨hnot, hvs⟩ := hids
    by_cases hv : v._id = videoId
    · have hkeep : vs.filter (fun w => w._id != videoId) = vs := by
        rw [List.filter_eq_self]
        intro w hw
        have : w._id ≠ videoId := by
          intro hwid
          exact hnot (List.mem_map.mpr ⟨w, hw, hwid.trans hv.symm⟩)
        simpa using this
      simp [List.eraseP_cons, hv, hkeep]
    · simp [List.eraseP_cons, hv, ih hvs]

/-- C9: for every collection in which the `_id`s are distinct and every well-formed
`videoId` (not blank, accepted by `isValidObjectId`, read by mongoose as the ObjectId `id`),
`deleteVideo` responds with status 200 and the record it found, a following `getVideoById`
of the same `videoId` on the resulting database fails with `ApiError` 404, and the delete
leaves every record with another `_id`, in the same order, as well as the users and the
likes. -/
theorem deleteVideo_then_getVideoById (env : Collaborators) (db : Db) (videoId id : String)
    (hb : jsTrim videoId ≠ "") (hv : env.isValidObjectId videoId = true)
    (hcast : env.objectId videoId = some id)
    (hids : (db.videos.map (fun v => v._id)).Nodup) :
    (deleteVideo env db videoId).outcome = .sent 200 (.envelope
      ⟨200, .videoOrNull (db.videos.find? (fun v => v._id == id)),
        "Video deleted successfully"⟩) ∧
    (getVideoById env (deleteVideo env db videoId).db videoId).outcome
      = .threw ⟨404, "video does not exist"⟩ ∧
    (deleteVideo env db videoId).db.videos = db.videos.filter (fun v => v._id != id) ∧
    (deleteVideo env db videoId).db.users = db.users ∧
    (deleteVideo env db videoId).db.likes = db.likes := by
  have hne : videoId ≠ "" := ne_empty_of_jsTrim_ne hb
  have hdb : (deleteVideo env db videoId).db.videos
      = db.videos.filter (fun v => v._id != id) := by
    simp [deleteVideo, hne, hcast, findByIdAndDelete, eraseP_id_eq_filter db.videos id hids]
  refine ⟨by simp [deleteVideo, hne, hcast, findById], ?_, hdb,
    by simp [deleteVideo, hne, hcast], by simp [deleteVideo, hne, hcast]⟩
  rw [getVideoById_of_wellformed env _ videoId id hb hv hcast, hdb]
  have hfilter : (db.videos.filter (fun v => v._id != id)).filter
      (fun v => v._id == id) = [] := by
    rw [List.filter_eq_nil_iff]
    intro v hmem
    have := (List.mem_filter.mp hmem).2
    simpa using this
  rw [hfilter]
  simp

theorem deleteVideo_then_getVideoById_witness :
    ((deleteVideo sampleEnv sampleDb "65F0A1B2C3D4E5F6A7B8C901").outcome = .sent 200 (.envelope
      ⟨200, .videoOrNull (sampleDb.videos.find? (fun v => v._id == "65f0a1b2c3d4e5f6a7b8c901")),
        "Video deleted successfully"⟩) ∧
    (getVideoById sampleEnv (deleteVideo sampleEnv sampleDb "65F0A1B2C3D4E5F6A7B8C901").db
      "65F0A1B2C3D4E5F6A7B8C901").outcome = .threw ⟨404, "video does not exist"⟩ ∧
    (deleteVideo sampleEnv sampleDb "65F0A1B2C3D4E5F6A7B8C901").db.videos
      = sampleDb.videos.filter (fun v => v._id != "65f0a1b2c3d4e5f6a7b8c901") ∧
    (deleteVideo sampleEnv sampleDb "65F0A1B2C3D4E5F6A7B8C901").db.users = sampleDb.users ∧
    (deleteVideo sampleEnv sampleDb "65F0A1B2C3D4E5F6A7B8C901").db.likes = sampleDb.likes) ∧
    (deleteVideo sampleEnv sampleDb "65F0A1B2C3D4E5F6A7B8C901").outcome = .sent 200 (.envelope
      ⟨200, .videoOrNull (some catsVideo), "Video deleted successfully"⟩) ∧
    (deleteVideo sampleEnv sampleDb "65F0A1B2C3D4E5F6A7B8C901").db.videos = [dogsVideo] :=
  ⟨deleteVideo_then_getVideoById sampleEnv sampleDb "65F0A1B2C3D4E5F6A7B8C901"
    "65f0a1b2c3d4e5f6a7b8c901" (by decide) (by decide) (by decide) (by decide),
   by decide, by decide⟩

/-! ## The `_id`s stay distinct -/

theorem save_ids (videos : List Video) (video : Video) :
    (save videos video).map (fun v => v._id) = videos.map (fun v => v._id) := by
  induction videos with
  | nil => rfl
  | cons v vs ih =>
    by_cases h : v._id = video._id
    · simp [save, h]
    · simp [save, h, ih]

/-- Deleting keeps the `_id`s of the collection distinct. -/
theorem deleteVideo_ids_nodup (env : Collaborators) (db : Db) (videoId : String)
    (hids : (db.videos.map (fun v => v._id)).Nodup) :
    ((deleteVideo env db videoId).db.videos.map (fun v => v._id)).Nodup := by
  unfold deleteVideo
  split
  · exact hids
  · split
    · exact hids
    · exact hids.sublist ((List.eraseP_sublist db.videos).map _)

/-- Toggling keeps the `_id`s of the collection as they are. -/
theorem togglePublishStatus_ids (env : Collaborators) (db : Db) (videoId : String)
    (user : Option String) :
    (togglePublishStatus env db videoId user).db.videos.map (fun v => v._id)
      = db.videos.map (fun v => v._id) := by
  unfold togglePublishStatus
  split
  · rfl
  · split
    · rfl
    · split
      · rfl
      · split
        · rfl
        · exact save_ids _ _

/-- Publishing keeps the `_id`s distinct when the database assigns an unused one. -/
theorem publishAVideo_ids_nodup (env : Collaborators) (db : Db) (req : PublishRequest)
    (hids : (db.videos.map (fun v => v._id)).Nodup)
    (hfresh : env.newId ∉ db.videos.map (fun v => v._id)) :
    ((publishAVideo env db req).db.videos.map (fun v => v._id)).Nodup := by
  have hnew : ((db.videos.map (fun v => v._id)) ++ [env.newId]).Nodup :=
    List.Nodup.append hids (List.nodup_singleton _) (by simpa [List.Disjoint] using hfresh)
  unfold publishAVideo
  split
  · exact hids
  · split
    · exact hids
    · split
      · exact hids
      · split
        · split
          · exact hids
          · rename_i vp tp _ _ _
            cases env.uploadOnCloudinary vp <;> cases env.uploadOnCloudinary tp <;>
              cases req.user <;> simp [Video.create, hids, hnew]
        · exact hids

/-! ## Toggling the publish status -/

/-- The guard of `togglePublishStatus` rejects every id that `isValidObjectId` accepts:
the handler throws `ApiError` 400 before it reads the database. -/
theorem togglePublishStatus_of_valid (env : Collaborators) (db : Db) (videoId : String)
    (user : Option String) (hv : env.isValidObjectId videoId = true) :
    togglePublishStatus env db videoId user =
      { outcome := .threw ⟨400, "videoId is required."⟩, db := db, trace := [] } := by
  simp [togglePublishStatus, hv]

/-- C1, the code at the failing input: the stored video `catsVideo` has a valid id and is
owned by the requester `u1`, yet `togglePublishStatus` throws `ApiError` 400 instead of
answering 200, and `isPublished` keeps its value instead of being negated. -/
theorem togglePublishStatus_owner_rejected :
    catsVideo ∈ sampleDb.videos ∧
    sampleEnv.isValidObjectId catsVideo._id = true ∧
    catsVideo.owner = "u1" ∧
    (togglePublishStatus sampleEnv sampleDb catsVideo._id (some "u1")).outcome
      = .threw ⟨400, "videoId is required."⟩ ∧
    (findById (togglePublishStatus sampleEnv sampleDb catsVideo._id (some "u1")).db.videos
      catsVideo._id).map (fun v => v.isPublished) = some catsVideo.isPublished := by
  decide

/-- C2, the code at the failing input: the stored video `catsVideo` has a valid id and the
requester `u2` is not its owner; `togglePublishStatus` throws `ApiError` 400, not 401. The
database, and so `isPublished`, is unchanged. -/
theorem togglePublishStatus_stranger_bad_request :
    catsVideo ∈ sampleDb.videos ∧
    sampleEnv.isValidObjectId catsVideo._id = true ∧
    catsVideo.owner ≠ "u2" ∧
    (togglePublishStatus sampleEnv sampleDb catsVideo._id (some "u2")).outcome
      = .threw ⟨400, "videoId is required."⟩ ∧
    (togglePublishStatus sampleEnv sampleDb catsVideo._id (some "u2")).outcome
      ≠ .threw ⟨401, "Unauthorised user"⟩ ∧
    (togglePublishStatus sampleEnv sampleDb catsVideo._id (some "u2")).db = sampleDb := by
  decide

/-! ## The sort order is a total preorder -/

theorem lexLe_total {α : Type} (le : α → α → Bool)
    (htot : ∀ a b, le a b = true ∨ le b a = true) :
    ∀ l₁ l₂ : List α, lexLe le l₁ l₂ = true ∨ lexLe le l₂ l₁ = true := by
  intro l₁
  induction l₁ with
  | nil => intro l₂; left; simp [lexLe]
  | cons a as ih =>
    intro l₂
    cases l₂ with
    | nil => right; simp [lexLe]
    | cons b bs =>
      simp only [lexLe]
      by_cases hab : le a b = true <;> by_cases hba : le b a = true
      · simpa [hab, hba] using ih bs
      · simp [hab, hba]
      · simp [hab, hba]
      · rcases htot a b with h | h
        · exact absurd h hab
        · exact absurd h hba

theorem lexLe_trans {α : Type} (le : α → α → Bool)
    (htr : ∀ a b c, le a b = true → le b c = true → le a c = true) :
    ∀ l₁ l₂ l₃ : List α, lexLe le l₁ l₂ = true → lexLe le l₂ l₃ = true →
      lexLe le l₁ l₃ = true := by
  intro l₁
  induction l₁ with
  | nil => intro l₂ l₃ _ _; simp [lexLe]
  | cons a as ih =>
    intro l₂ l₃ h₁ h₂
    cases l₂ with
    | nil => simp [lexLe] at h₁
    | cons b bs =>
      cases l₃ with
      | nil => simp [lexLe] at h₂
      | cons c cs =>
        simp only [lexLe] at h₁ h₂ ⊢
        have hab : le a b = true := by
          by_contra hn
          simp [hn] at h₁
        have hbc : le b c = true := by
          by_contra hn
          simp [hn] at h₂
        have hac : le a c = true := htr a b c hab hbc
        simp only [hab, hbc, if_true] at h₁ h₂
        simp only [hac, if_true]
        by_cases hca : le c a = true
        · have hcb : le c b = true := htr c a b hca hab
          have hba : le b a = true := htr b c a hbc hca
          simp only [hcb, hba, if_true] at h₁ h₂
          simpa [hca] using ih bs cs h₁ h₂
        · simp [hca]

theorem strLe_total (s t : String) : strLe s t = true ∨ strLe t s = true :=
  lexLe_total Nat.ble (fun a b => by simp only [Nat.ble_eq]; omega) _ _

theorem strLe_trans (s t u : String) (h₁ : strLe s t = true) (h₂ : strLe t u = true) :
    strLe s u = true :=
  lexLe_trans Nat.ble (fun a b c => by simp only [Nat.ble_eq]; omega) _ _ _ h₁ h₂

theorem ownerLe_total (a b : OwnerSummary) :
    OwnerSummary.le a b = true ∨ OwnerSummary.le b a = true :=
  lexLe_total strLe strLe_total _ _

theorem ownerLe_trans (a b c : OwnerSummary) (h₁ : OwnerSummary.le a b = true)
    (h₂ : OwnerSummary.le b c = true) : OwnerSummary.le a c = true :=
  lexLe_trans strLe strLe_trans _ _ _ h₁ h₂

theorem valueLe_total (a b : Value) : Value.le a b = true ∨ Value.le b a = true := by
  cases a <;> cases b <;> simp [Value.le, Value.rank]
  · omega
  · exact strLe_total _ _
  · exact ownerLe_total _ _
  · exact strLe_total _ _
  · rename_i x y; cases x <;> cases y <;> simp

theorem valueLe_trans (a b c : Value) (h₁ : Value.le a b = true) (h₂ : Value.le b c = true) :
    Value.le a c = true := by
  cases a <;> cases b <;> cases c <;> simp [Value.le, Value.rank] at h₁ h₂ ⊢
  · omega
  · exact strLe_trans _ _ _ h₁ h₂
  · exact ownerLe_trans _ _ _ h₁ h₂
  · exact strLe_trans _ _ _ h₁ h₂
  · rename_i x y z; cases x <;> cases y <;> cases z <;> simp_all

theorem sortRel_total (path : String) (ascending : Bool) (a b : VideoSummary) :
    sortRel path ascending a b ∨ sortRel path ascending b a := by
  unfold sortRel
  cases ascending
  · simpa using valueLe_total (b.field path) (a.field path)
  · simpa using valueLe_total (a.field path) (b.field path)

theorem sortRel_trans (path : String) (ascending : Bool) (a b c : VideoSummary)
    (h₁ : sortRel path ascending a b) (h₂ : sortRel path ascending b c) :
    sortRel path ascending a c := by
  unfold sortRel at h₁ h₂ ⊢
  cases ascending
  · simp only [Bool.false_eq_true, if_false] at h₁ h₂ ⊢
    exact valueLe_trans _ _ _ h₂ h₁
  · simp only [if_true] at h₁ h₂ ⊢
    exact valueLe_trans _ _ _ h₁ h₂

theorem sortStage_sorted (path : String) (ascending : Bool) (docs : List VideoSummary) :
    (sortStage path ascending docs).Pairwise (sortRel path ascending) :=
  haveI : IsTotal VideoSummary (sortRel path ascending) := ⟨sortRel_total path ascending⟩
  haveI : IsTrans VideoSummary (sortRel path ascending) := ⟨sortRel_trans path ascending⟩
  List.sorted_insertionSort (sortRel path ascending) docs

theorem sortStage_perm (path : String) (ascending : Bool) (docs : List VideoSummary) :
    (sortStage path ascending docs).Perm docs :=
  List.perm_insertionSort (sortRel path ascending) docs

/-! ## Listing -/

/-- The page window when `page`, `limit` and `parseInt(limit)` are integers and the
arithmetic is exact. -/
theorem pageWindow_of_int (env : Collaborators) (pageParam limitParam : Option String)
    (page limit parsed : Int)
    (hpage : numberOr 1 pageParam = .int page) (hlimit : numberOr 10 limitParam = .int limit)
    (hparse : parseIntOr 10 limitParam = .int parsed)
    (hskip : 0 ≤ (page - 1) * limit) (hexact : (page - 1) * limit ≤ 2 ^ 53)
    (hparsed : 1 ≤ parsed) :
    pageWindow env pageParam limitParam = some (((page - 1) * limit).toNat, parsed.toNat) := by
  have habs : ((page - 1) * limit).natAbs ≤ 9007199254740992 := by omega
  have hneg : ¬ ((page - 1) * limit < 0) := by omega
  have hpos : ¬ (parsed ≤ 0) := by omega
  simp [pageWindow, hpage, hlimit, hparse, skipArgument, limitArgument, habs, hneg, hpos]

/-- The items of a response of `getAllVideos` are a window of the sorted matches. -/
theorem getAllVideos_items (env : Collaborators) (db : Db) (q : ListQuery)
    (items : List VideoSummary) (status : Nat) (message : String)
    (h : (getAllVideos env db q).outcome =
      .sent status (.envelope ⟨status, .summaries items, message⟩)) :
    ∃ skip limit, pageWindow env q.page q.limit = some (skip, limit) ∧
      items = ((sortedMatches env db q).drop skip).take limit := by
  unfold getAllVideos at h
  split at h
  · simp at h
  · rename_i skip limit hw
    simp only [Outcome.sent.injEq, Body.envelope.injEq, ApiResponse.mk.injEq,
      Payload.summaries.injEq] at h
    exact ⟨skip, limit, hw, h.2.2.1.symm⟩

theorem summarise_field_of_copied (users : List User) (v : Video) (name : String)
    (h : name ∈ copiedFields) : (summarise users v).field name = v.field name := by
  simp only [copiedFields, List.mem_cons, List.mem_singleton, List.not_mem_nil, or_false] at h
  rcases h with rfl | rfl | rfl | rfl | rfl <;>
    simp [VideoSummary.field, Video.field, summarise]

theorem field_null_of_not_projected (s : VideoSummary) (path : String)
    (h : path ∉ projectedPaths) : s.field path = .null := by
  simp only [projectedPaths, List.mem_cons, List.mem_singleton, List.not_mem_nil, or_false,
    not_or] at h
  obtain ⟨h1, h2, h3, h4, h5, h6, h7, h8, h9, h10⟩ := h
  simp [VideoSummary.field, h1, h2, h3, h4, h5, h6, h7, h8, h9, h10]

theorem sortStage_of_not_projected (path : String) (ascending : Bool)
    (docs : List VideoSummary) (h : path ∉ projectedPaths) :
    sortStage path ascending docs = docs := by
  apply List.Sorted.insertionSort_eq
  apply List.pairwise_of_forall
  intro a b
  unfold sortRel
  rw [field_null_of_not_projected a path h, field_null_of_not_projected b path h]
  cases ascending <;> simp [Value.le]

/-- The response of `getAllVideos` when `page`, `limit` and `parseInt(limit)` are integers
and the arithmetic is exact: the sorted matches without the first `(page - 1) * limit`,
cut to the first `parseInt(limit)`. -/
theorem getAllVideos_window (env : Collaborators) (db : Db) (q : ListQuery)
    (page limit parsed : Int)
    (hpage : numberOr 1 q.page = .int page) (hlimit : numberOr 10 q.limit = .int limit)
    (hparse : parseIntOr 10 q.limit = .int parsed)
    (hskip : 0 ≤ (page - 1) * limit) (hexact : (page - 1) * limit ≤ 2 ^ 53)
    (hparsed : 1 ≤ parsed) :
    getAllVideos env db q =
      { outcome := .sent 200 (.envelope ⟨200, .summaries
          (((sortedMatches env db q).drop ((page - 1) * limit).toNat).take parsed.toNat),
          "fetched successfully"⟩)
        db := db, trace := [.aggregate] } := by
  unfold getAllVideos
  rw [pageWindow_of_int env q.page q.limit page limit parsed hpage hlimit hparse hskip hexact
    hparsed]

/-- C7, counterexample: the parameter `limit=1e1` has the value 10 in the arithmetic
`(page - 1) * limit` and the value 1 under `parseInt`; two stored videos match `query=cats`.
With `page=1` the handler returns one item, while the sorted matches cut to their first 10
elements are both videos. With `page=2` the handler skips 10 and returns nothing, while the
sorted matches without their first `(2 - 1) * 1` element, cut to 1 element, are the second
video. So the result is not the claimed sequence, whether `limit` is read as 10 or as 1. -/
theorem getAllVideos_limit_cut_by_parseInt :
    numberOr 1 (some "1") = .int 1 ∧ numberOr 1 (some "2") = .int 2 ∧
    numberOr 10 (some "1e1") = .int 10 ∧ parseIntOr 10 (some "1e1") = .int 1 ∧
    (sortStage "title" true
      ((sampleDb.videos.filter (fun v =>
        (match v.title with
          | some title => sampleEnv.regexI (some "cats") title
          | none => false) ||
        (match v.description with
          | some description => sampleEnv.regexI (some "cats") description
          | none => false))).map (summarise sampleDb.users)))
      = [summarise sampleDb.users dogsVideo, summarise sampleDb.users catsVideo] ∧
    (getAllVideos sampleEnv sampleDb
      { page := some "1", limit := some "1e1", query := some "cats", sortBy := some "title"
        sortType := some "asc", userId := none }).outcome =
      .sent 200 (.envelope ⟨200, .summaries [summarise sampleDb.users dogsVideo],
        "fetched successfully"⟩) ∧
    [summarise sampleDb.users dogsVideo] ≠
      ([summarise sampleDb.users dogsVideo, summarise sampleDb.users catsVideo].drop
        ((1 - 1) * 10)).take 10 ∧
    (getAllVideos sampleEnv sampleDb
      { page := some "2", limit := some "1e1", query := some "cats", sortBy := some "title"
        sortType := some "asc", userId := none }).outcome =
      .sent 200 (.envelope ⟨200, .summaries [], "fetched successfully"⟩) ∧
    ([] : List VideoSummary) ≠
      ([summarise sampleDb.users dogsVideo, summarise sampleDb.users catsVideo].drop
        ((2 - 1) * 1)).take 1 := by
  refine ⟨by decide, by decide, by decide, by decide, by decide, by decide, by decide,
    by decide, by decide⟩

/-- C7, amended: let `page ≥ 1` and `limit ≥ 1` be the values of the parameters `page` and
`limit` in the arithmetic `(page - 1) * limit` (an absent `page` counts as 1, an absent
`limit` as 10), let `parseInt(limit)` be that same `limit`, as it is for a limit written in
plain decimal digits, and let `(page - 1) * limit` be at most `2 ^ 53`. Then for every
database `getAllVideos` answers 200 with at most `limit` items, and the items are the sorted
sequence of the (projected) videos whose title or description matches the query
case-insensitively, without its first `(page - 1) * limit` elements and cut to its first
`limit` elements. The sorted sequence is the output of the sort stage: a permutation of the
matching videos, ordered on the key `sortBy`, ascending when `sortType` is `"asc"` and
descending otherwise. -/
theorem getAllVideos_page (env : Collaborators) (db : Db)
    (pageParam limitParam query sortBy sortType userId : Option String) (page limit : Int)
    (hpage : numberOr 1 pageParam = .int page) (hlimit : numberOr 10 limitParam = .int limit)
    (hparse : parseIntOr 10 limitParam = .int limit)
    (hp : 1 ≤ page) (hl : 1 ≤ limit) (hexact : (page - 1) * limit ≤ 2 ^ 53) :
    ∃ items sorted : List VideoSummary,
      (getAllVideos env db
        { page := pageParam, limit := limitParam, query := query, sortBy := sortBy
          sortType := sortType, userId := userId }).outcome =
        .sent 200 (.envelope ⟨200, .summaries items, "fetched successfully"⟩) ∧
      (items.length : Int) ≤ limit ∧
      sorted = sortStage (sortBy.getD "undefined") (sortType == some "asc")
        ((db.videos.filter (fun v =>
          (match v.title with
            | some title => env.regexI query title
            | none => false) ||
          (match v.description with
            | some description => env.regexI query description
            | none => false))).map (summarise db.users)) ∧
      sorted.Perm
        ((db.videos.filter (fun v =>
          (match v.title with
            | some title => env.regexI query title
            | none => false) ||
          (match v.description with
            | some description => env.regexI query description
            | none => false))).map (summarise db.users)) ∧
      sorted.Pairwise (fun a b =>
        if sortType = some "asc" then
          Value.le (a.field (sortBy.getD "undefined")) (b.field (sortBy.getD "undefined")) = true
        else
          Value.le (b.field (sortBy.getD "undefined")) (a.field (sortBy.getD "undefined"))
            = true) ∧
      items = (sorted.drop ((page - 1) * limit).toNat).take limit.toNat := by
  have hskip : 0 ≤ (page - 1) * limit := Int.mul_nonneg (by omega) (by omega)
  refine ⟨_, _, ?_, ?_, rfl, sortStage_perm _ _ _, ?_, rfl⟩
  · rw [getAllVideos_window env db _ page limit limit hpage hlimit hparse hskip hexact hl]
    rfl
  · have hlen := List.length_take_le limit.toNat
      ((sortStage (sortBy.getD "undefined") (sortType == some "asc")
        ((db.videos.filter (fun v =>
          (match v.title with
            | some title => env.regexI query title
            | none => false) ||
          (match v.description with
            | some description => env.regexI query description
            | none => false))).map (summarise db.users))).drop ((page - 1) * limit).toNat)
    omega
  · have hsorted := sortStage_sorted (sortBy.getD "undefined") (sortType == some "asc")
      ((db.videos.filter (fun v =>
          (match v.title with
            | some title => env.regexI query title
            | none => false) ||
          (match v.description with
            | some description => env.regexI query description
            | none => false))).map (summarise db.users))
    refine hsorted.imp ?_
    intro a b hab
    unfold sortRel at hab
    by_cases hasc : sortType = some "asc"
    · simpa [hasc] using hab
    · have hfalse : (sortType == some "asc") = false := by simpa using hasc
      simpa [hasc, hfalse] using hab

theorem getAllVideos_page_witness :
    (∃ items sorted : List VideoSummary,
      (getAllVideos sampleEnv sampleDb
        { page := some "2", limit := some "1", query := some "cats", sortBy := some "title"
          sortType := some "asc", userId := none }).outcome =
        .sent 200 (.envelope ⟨200, .summaries items, "fetched successfully"⟩) ∧
      (items.length : Int) ≤ 1 ∧
      sorted = sortStage ((some "title").getD "undefined") (some "asc" == some "asc")
        ((sampleDb.videos.filter (fun v =>
          (match v.title with
            | some title => sampleEnv.regexI (some "cats") title
            | none => false) ||
          (match v.description with
            | some description => sampleEnv.regexI (some "cats") description
            | none => false))).map (summarise sampleDb.users)) ∧
      sorted.Perm
        ((sampleDb.videos.filter (fun v =>
          (match v.title with
            | some title => sampleEnv.regexI (some "cats") title
            | none => false) ||
          (match v.description with
            | some description => sampleEnv.regexI (some "cats") description
            | none => false))).map (summarise sampleDb.users)) ∧
      sorted.Pairwise (fun a b =>
        if some "asc" = some "asc" then
          Value.le (a.field ((some "title").getD "undefined"))
            (b.field ((some "title").getD "undefined")) = true
        else
          Value.le (b.field ((some "title").getD "undefined"))
            (a.field ((some "title").getD "undefined")) = true) ∧
      items = (sorted.drop ((2 - 1) * 1 : Int).toNat).take (1 : Int).toNat) ∧
    (getAllVideos sampleEnv sampleDb
      { page := some "2", limit := some "1", query := some "cats", sortBy := some "title"
        sortType := some "asc", userId := none }).outcome =
      .sent 200 (.envelope ⟨200, .summaries [summarise sampleDb.users catsVideo],
        "fetched successfully"⟩) ∧
    (getAllVideos sampleEnv sampleDb
      { page := none, limit := none, query := some "cats", sortBy := some "title"
        sortType := some "desc", userId := none }).outcome =
      .sent 200 (.envelope ⟨200, .summaries
        [summarise sampleDb.users catsVideo, summarise sampleDb.users dogsVideo],
        "fetched successfully"⟩) :=
  ⟨getAllVideos_page sampleEnv sampleDb (some "2") (some "1") (some "cats") (some "title")
      (some "asc") none 2 1 (by decide) (by decide) (by decide) (by decide) (by decide)
      (by decide),
    by decide, by decide⟩

theorem exists_videos_of_items (db : Db) (items : List VideoSummary)
    (h : ∀ a ∈ items, ∃ v ∈ db.videos, a = summarise db.users v) :
    ∃ vids : List Video, items = vids.map (summarise db.users) ∧ ∀ v ∈ vids, v ∈ db.videos := by
  induction items with
  | nil => exact ⟨[], rfl, by simp⟩
  | cons a as ih =>
    obtain ⟨v, hv, rfl⟩ := h a (List.mem_cons_self _ _)
    obtain ⟨vs, rfl, hvs⟩ := ih (fun b hb => h b (List.mem_cons_of_mem _ hb))
    refine ⟨v :: vs, rfl, ?_⟩
    intro w hw
    rcases List.mem_cons.mp hw with rfl | hw
    · exact hv
    · exact hvs w hw

theorem map_eq_pair {α β : Type} (f : α → β) (l : List α) (x y : β) (h : [x, y] = l.map f) :
    ∃ a b, l = [a, b] ∧ f a = x ∧ f b = y := by
  cases l with
  | nil => simp at h
  | cons a t =>
    cases t with
    | nil => simp at h
    | cons b t =>
      cases t with
      | nil =>
        simp only [List.map_cons, List.map_nil, List.cons.injEq, and_true] at h
        exact ⟨a, b, rfl, h.1.symm, h.2.symm⟩
      | cons c t => simp at h

/-- When the collection consists of the videos `x` and `y`, with different projections, and
the pair `x`, `y` is in the wrong order on the field `name`, the result
`[summarise x, summarise y]` is not ordered on that field of the videos. -/
theorem not_ordered_of_pair (db : Db) (name : String) (ascending : Bool) (x y : Video)
    (hall : ∀ v ∈ db.videos, v = x ∨ v = y)
    (hne : summarise db.users x ≠ summarise db.users y)
    (hbad : (if ascending then Value.le (x.field name) (y.field name)
      else Value.le (y.field name) (x.field name)) = false) :
    ¬ OrderedOnVideoField db name ascending [summarise db.users x, summarise db.users y] := by
  rintro ⟨vids, hmap, hmem, hpw⟩
  obtain ⟨a, b, rfl, ha, hb⟩ := map_eq_pair _ vids _ _ hmap
  have hax : a = x := by
    rcases hall a (hmem a (by simp)) with h | h
    · exact h
    · subst h
      exact absurd ha.symm hne
  have hby : b = y := by
    rcases hall b (hmem b (by simp)) with h | h
    · subst h
      exact absurd hb hne
    · exact h
  subst hax hby
  simp only [List.pairwise_cons] at hpw
  have hrel := hpw.1 b (List.mem_singleton.mpr rfl)
  cases ascending
  · simp only [Bool.false_eq_true, if_false] at hrel hbad
    rw [hbad] at hrel
    exact Bool.false_ne_true hrel
  · simp only [if_true] at hrel hbad
    rw [hbad] at hrel
    exact Bool.false_ne_true hrel

/-- The projection forgets the duration of a video: the sort stage, which runs on the
projected documents, cannot depend on it. -/
theorem summarise_forgets_duration (users : List User) (v : Video) (d : Nat) :
    summarise users { v with duration := d } = summarise users v := rfl

/-- C8, counterexample: with `sortBy=duration` and `sortType=asc` the video of duration 5
is returned before the video of duration 3, and with `sortType=desc` on the collection
stored in the other order the video of duration 3 is returned before the video of
duration 5: the result is not ordered on the videos' field `duration` in either direction,
because the projected documents the sort stage receives have no such field. -/
theorem getAllVideos_not_ordered_on_duration :
    (getAllVideos sampleEnv sampleDb (catsQuery "duration" "asc")).outcome =
      .sent 200 (.envelope ⟨200, .summaries
        [summarise sampleDb.users catsVideo, summarise sampleDb.users dogsVideo],
        "fetched successfully"⟩) ∧
    catsVideo.field "duration" = .num 5 ∧ dogsVideo.field "duration" = .num 3 ∧
    ¬ OrderedOnVideoField sampleDb "duration" (catsQuery "duration" "asc").ascending
      [summarise sampleDb.users catsVideo, summarise sampleDb.users dogsVideo] ∧
    (getAllVideos sampleEnv swappedDb (catsQuery "duration" "desc")).outcome =
      .sent 200 (.envelope ⟨200, .summaries
        [summarise swappedDb.users dogsVideo, summarise swappedDb.users catsVideo],
        "fetched successfully"⟩) ∧
    ¬ OrderedOnVideoField swappedDb "duration" (catsQuery "duration" "desc").ascending
      [summarise swappedDb.users dogsVideo, summarise swappedDb.users catsVideo] := by
  refine ⟨by decide, by decide, by decide, ?_, by decide, ?_⟩
  · exact not_ordered_of_pair sampleDb "duration" true catsVideo dogsVideo
      (by decide) (by decide) (by decide)
  · exact not_ordered_of_pair swappedDb "duration" false dogsVideo catsVideo
      (by decide) (by decide) (by decide)

/-- C8, amended: for every `sortBy`, any two items `a` before `b` in a result of
`getAllVideos` are ordered on the sort key `F` read from the returned (projected) items, an
absent field counting as null: `a.F ≤ b.F` when `sortType` is `"asc"`, `a.F ≥ b.F` when it
is anything else. Every item is the projection of a stored video, and when `F` is one of
the fields the projection copies (`_id`, `thumbnail`, `videoFile`, `title`, `description`)
the key of an item is that video's field `F`, so the result is ordered on the videos'
field `F`. -/
theorem getAllVideos_ordered_on_projection (env : Collaborators) (db : Db) (q : ListQuery)
    (items : List VideoSummary)
    (h : (getAllVideos env db q).outcome =
      .sent 200 (.envelope ⟨200, .summaries items, "fetched successfully"⟩)) :
    (q.sortType = some "asc" → items.Pairwise (fun a b =>
      Value.le (a.field q.sortKey) (b.field q.sortKey) = true)) ∧
    (q.sortType ≠ some "asc" → items.Pairwise (fun a b =>
      Value.le (b.field q.sortKey) (a.field q.sortKey) = true)) ∧
    (∀ a ∈ items, ∃ v ∈ db.videos, a = summarise db.users v ∧
      (q.sortKey ∈ copiedFields → a.field q.sortKey = v.field q.sortKey)) ∧
    (q.sortKey ∈ copiedFields → OrderedOnVideoField db q.sortKey q.ascending items) := by
  obtain ⟨skip, limit, _, hitems⟩ := getAllVideos_items env db q items 200 _ h
  have hsub : items.Sublist (sortStage q.sortKey q.ascending
      ((matchStage env q.query db.videos).map (summarise db.users))) := by
    rw [hitems]
    unfold sortedMatches
    exact (List.take_sublist _ _).trans (List.drop_sublist _ _)
  have hsorted := (sortStage_sorted q.sortKey q.ascending
    ((matchStage env q.query db.videos).map (summarise db.users))).sublist hsub
  have hfrom : ∀ a ∈ items, ∃ v ∈ db.videos, a = summarise db.users v := by
    intro a ha
    have hmem : a ∈ (matchStage env q.query db.videos).map (summarise db.users) :=
      (sortStage_perm _ _ _).subset (hsub.subset ha)
    obtain ⟨v, hv, rfl⟩ := List.mem_map.mp hmem
    exact ⟨v, (List.mem_filter.mp hv).1, rfl⟩
  refine ⟨?_, ?_, ?_, ?_⟩
  · intro hasc
    have : q.ascending = true := by simp [ListQuery.ascending, hasc]
    simpa [sortRel, this] using hsorted
  · intro hdesc
    have : q.ascending = false := by simpa [ListQuery.ascending] using hdesc
    simpa [sortRel, this] using hsorted
  · intro a ha
    obtain ⟨v, hv, rfl⟩ := hfrom a ha
    exact ⟨v, hv, rfl, fun hc => summarise_field_of_copied db.users v q.sortKey hc⟩
  · intro hc
    obtain ⟨vids, rfl, hvids⟩ := exists_videos_of_items db items hfrom
    refine ⟨vids, rfl, hvids, ?_⟩
    have hpw := List.pairwise_map.mp hsorted
    refine hpw.imp ?_
    intro a b hab
    unfold sortRel at hab
    rw [summarise_field_of_copied db.users a q.sortKey hc,
      summarise_field_of_copied db.users b q.sortKey hc] at hab
    exact hab

theorem getAllVideos_ordered_on_projection_witness :
    [summarise sampleDb.users dogsVideo, summarise sampleDb.users catsVideo].Pairwise
      (fun a b => Value.le (a.field (catsQuery "title" "asc").sortKey)
        (b.field (catsQuery "title" "asc").sortKey) = true) ∧
    OrderedOnVideoField sampleDb (catsQuery "title" "asc").sortKey
      (catsQuery "title" "asc").ascending
      [summarise sampleDb.users dogsVideo, summarise sampleDb.users catsVideo] ∧
    (getAllVideos sampleEnv sampleDb (catsQuery "title" "asc")).outcome =
      .sent 200 (.envelope ⟨200, .summaries
        [summarise sampleDb.users dogsVideo, summarise sampleDb.users catsVideo],
        "fetched successfully"⟩) :=
  ⟨(getAllVideos_ordered_on_projection sampleEnv sampleDb (catsQuery "title" "asc")
      [summarise sampleDb.users dogsVideo, summarise sampleDb.users catsVideo] (by decide)).1 rfl,
    (getAllVideos_ordered_on_projection sampleEnv sampleDb (catsQuery "title" "asc")
      [summarise sampleDb.users dogsVideo, summarise sampleDb.users catsVideo]
      (by decide)).2.2.2 (by decide),
    by decide⟩

end VideoPlay
